import Mathlib

/-!
Verification of the Ordne backend (src/main.py, src/schemas.py): a generic
CRUD gateway over a document store with schema-driven collections and a
derived graph view.

Python dynamic values are embedded as the inductive `Val`; documents
(Python dicts with string keys) are association lists with distinct keys,
read through `pyGet` (dict.get).  The store adapter module (database.py)
is not among the sources: the read side (`get_documents`) is abstracted as
an arbitrary find function over which the handlers are proved, and the
write side (`create_document`) is modelled from the spec.
-/

namespace Ordne

/-- Embedding of the Python runtime values this service manipulates.
A datetime/date value carries its isoformat text; a store ObjectId
carries its str() text. -/
inductive Val where
  | vNone
  | vStr (s : String)
  | vInt (n : Int)
  | vBool (b : Bool)
  | vList (xs : List Val)
  | vDate (iso : String)
  | vOid (oid : String)
  deriving Repr

mutual

/-- Python str() on an embedded value.  str(None) is the four-letter
string "None", not the empty string.  For a list the element rendering is
approximated (Python uses repr of the elements); what matters for the
code under verification is that it is never the empty string. -/
def pyStr : Val → String
  | .vNone => "None"
  | .vStr s => s
  | .vInt n => toString n
  | .vBool true => "True"
  | .vBool false => "False"
  | .vList xs => "[" ++ String.intercalate ", " (pyStrList xs) ++ "]"
  | .vDate iso => iso
  | .vOid oid => oid

/-- str() of each element of a Python list. -/
def pyStrList : List Val → List String
  | [] => []
  | v :: vs => pyStr v :: pyStrList vs

end

/-- Python truthiness of an embedded value (None, "", 0, False and []
are falsy; datetimes and ObjectIds are always truthy). -/
def pyTruthy : Val → Bool
  | .vNone => false
  | .vStr s => !(s == "")
  | .vInt n => !(n == 0)
  | .vBool b => b
  | .vList xs => !xs.isEmpty
  | .vDate _ => true
  | .vOid _ => true

/-- Python `a or b` on embedded values: `a` when truthy, else `b`. -/
def pyOr (a b : Val) : Val := if pyTruthy a then a else b

/-- Python str.capitalize(): first character upper-cased, the rest
lower-cased. -/
def pyCapitalize (s : String) : String :=
  match s.data with
  | [] => ""
  | c :: rest => String.mk (c.toUpper :: rest.map Char.toLower)

/-- Python str.lower(): ASCII case folding, written over the character
list so it computes by definitional reduction (it agrees with
String.toLower; the registered class names are ASCII). -/
def pyLower (s : String) : String := String.mk (s.data.map Char.toLower)

/-- A Python dict with string keys, as an association list (keys distinct,
insertion order preserved — Python dicts preserve insertion order). -/
abbrev Doc := List (String × Val)

/-- dict lookup: `d[k]` when present.  First match; documents have
distinct keys. -/
def pyGet (d : Doc) (k : String) : Option Val :=
  (d.find? fun kv => kv.1 == k).map fun kv => kv.2

/-- Python `d.get(k, dflt)`. -/
def pyGetD (d : Doc) (k : String) (dflt : Val) : Val :=
  (pyGet d k).getD dflt

/-- Store-level failures named by the spec (§4.3). -/
inductive StoreError where
  | storeUnavailable
  | storeWriteError
  deriving Repr, DecidableEq

/-- Behaviour of `database.get_documents(collection, limit)` (database.py
is not among the sources).  The handlers are parameterised over an
arbitrary such function, which covers the spec contract (§4.3): an
absent collection yields `.ok []`, an unreachable store raises, modelled
as `.error`. -/
abbrev FindFn := String → Nat → Except StoreError (List Doc)

/-! ## Schema registry (src/schemas.py)

Each pydantic model becomes a `ModelSpec`: an ordered list of field
specifications transcribed from the class declaration.  A field check
models the declared type on canonical embedded values; pydantic lax-mode
coercions (e.g. numeric strings) are not modelled, and error messages are
abstracted.  `annot` approximates str(f.annotation); its exact text is
never observable (see `schema_summary`). -/

/-- One declared pydantic field: name, type/constraint check for a
present value, required flag, default used when absent, declared
description and annotation text. -/
structure FieldSpec where
  name : String
  check : Val → Bool
  required : Bool
  default : Val
  description : Val
  annot : String

def checkStr : Val → Bool
  | .vStr _ => true
  | _ => false

/-- Optional[...] admits None as well. -/
def checkOpt (c : Val → Bool) : Val → Bool
  | .vNone => true
  | v => c v

/-- Literal[...] fields: one of the declared string literals,
case-sensitive. -/
def checkLiteral (ls : List String) : Val → Bool
  | .vStr s => ls.contains s
  | _ => false

def checkBool : Val → Bool
  | .vBool _ => true
  | _ => false

def checkListStr : Val → Bool
  | .vList xs => xs.all checkStr
  | _ => false

/-- conint-style lower bound (retention_period_months: ge=0). -/
def checkIntGe (lo : Int) : Val → Bool
  | .vInt m => decide (lo ≤ m)
  | _ => false

/-- Model of the external email-validator used by EmailStr (the library
is outside the sources); the exact syntax check is abstracted. -/
def emailOk (s : String) : Bool := s.contains '@'

def checkEmail : Val → Bool
  | .vStr s => emailOk s
  | _ => false

/-- A registered record type: class name plus ordered field specs. -/
structure ModelSpec where
  name : String
  fields : List FieldSpec

def Application : ModelSpec :=
  { name := "Application"
    fields :=
      [ { name := "name", check := checkStr, required := true, default := .vNone,
          description := .vStr "Application name", annot := "str" },
        { name := "description", check := checkOpt checkStr, required := false, default := .vNone,
          description := .vStr "What it does in the business context", annot := "Optional[str]" },
        { name := "owner", check := checkOpt checkStr, required := false, default := .vNone,
          description := .vStr "Business owner (person/team)", annot := "Optional[str]" },
        { name := "technical_owner", check := checkOpt checkStr, required := false, default := .vNone,
          description := .vStr "Technical owner (person/team)", annot := "Optional[str]" },
        { name := "vendor", check := checkOpt checkStr, required := false, default := .vNone,
          description := .vStr "Vendor name if SaaS or purchased software", annot := "Optional[str]" },
        { name := "criticality", check := checkLiteral ["low", "medium", "high"], required := false,
          default := .vStr "medium", description := .vStr "Business criticality", annot := "Literal" },
        { name := "lifecycle", check := checkLiteral ["ideation", "active", "sunset"], required := false,
          default := .vStr "active", description := .vStr "Lifecycle stage", annot := "Literal" },
        { name := "gdpr_data", check := checkBool, required := false, default := .vBool false,
          description := .vStr "Processes GDPR personal data", annot := "bool" },
        { name := "tags", check := checkListStr, required := false, default := .vList [],
          description := .vStr "Free-form labels", annot := "List[str]" } ] }

def Process : ModelSpec :=
  { name := "Process"
    fields :=
      [ { name := "name", check := checkStr, required := true, default := .vNone,
          description := .vStr "Business process name", annot := "str" },
        { name := "description", check := checkOpt checkStr, required := false, default := .vNone,
          description := .vNone, annot := "Optional[str]" },
        { name := "owner", check := checkOpt checkStr, required := false, default := .vNone,
          description := .vNone, annot := "Optional[str]" },
        { name := "level", check := checkOpt (checkLiteral ["L1", "L2", "L3"]), required := false,
          default := .vStr "L2", description := .vStr "Process decomposition level", annot := "Optional[Literal]" },
        { name := "related_applications", check := checkListStr, required := false, default := .vList [],
          description := .vStr "Linked application IDs or names", annot := "List[str]" } ] }

def Role : ModelSpec :=
  { name := "Role"
    fields :=
      [ { name := "name", check := checkStr, required := true, default := .vNone,
          description := .vStr "Role title (e.g., Sales Rep)", annot := "str" },
        { name := "email", check := checkOpt checkEmail, required := false, default := .vNone,
          description := .vStr "Contact email", annot := "Optional[EmailStr]" },
        { name := "department", check := checkOpt checkStr, required := false, default := .vNone,
          description := .vNone, annot := "Optional[str]" },
        { name := "responsibilities", check := checkListStr, required := false, default := .vList [],
          description := .vNone, annot := "List[str]" } ] }

def DataAsset : ModelSpec :=
  { name := "DataAsset"
    fields :=
      [ { name := "name", check := checkStr, required := true, default := .vNone,
          description := .vStr "Data asset name (e.g., Customer PII)", annot := "str" },
        { name := "category", check := checkLiteral ["PII", "Financial", "Operational", "Other"],
          required := false, default := .vStr "Other", description := .vNone, annot := "Literal" },
        { name := "description", check := checkOpt checkStr, required := false, default := .vNone,
          description := .vNone, annot := "Optional[str]" },
        { name := "retention_period_months", check := checkOpt (checkIntGe 0), required := false,
          default := .vNone, description := .vNone, annot := "Optional[int]" },
        { name := "gdpr_basis",
          check := checkOpt (checkLiteral ["consent", "contract", "legal_obligation",
            "legitimate_interest", "vital_interest", "public_task"]),
          required := false, default := .vNone, description := .vNone, annot := "Optional[Literal]" } ] }

def Risk : ModelSpec :=
  { name := "Risk"
    fields :=
      [ { name := "title", check := checkStr, required := true, default := .vNone,
          description := .vStr "Risk title", annot := "str" },
        { name := "description", check := checkOpt checkStr, required := false, default := .vNone,
          description := .vNone, annot := "Optional[str]" },
        { name := "likelihood", check := checkLiteral ["low", "medium", "high"], required := false,
          default := .vStr "low", description := .vNone, annot := "Literal" },
        { name := "impact", check := checkLiteral ["low", "medium", "high"], required := false,
          default := .vStr "low", description := .vNone, annot := "Literal" },
        { name := "owner", check := checkOpt checkStr, required := false, default := .vNone,
          description := .vNone, annot := "Optional[str]" },
        { name := "related_assets", check := checkListStr, required := false, default := .vList [],
          description := .vNone, annot := "List[str]" } ] }

def ComplianceRequirement : ModelSpec :=
  { name := "ComplianceRequirement"
    fields :=
      [ { name := "framework", check := checkLiteral ["GDPR", "ISO27001", "SOC2", "Other"],
          required := false, default := .vStr "GDPR", description := .vNone, annot := "Literal" },
        { name := "control_id", check := checkOpt checkStr, required := false, default := .vNone,
          description := .vStr "Control identifier (e.g., A.5.1)", annot := "Optional[str]" },
        { name := "title", check := checkStr, required := true, default := .vNone,
          description := .vNone, annot := "str" },
        { name := "description", check := checkOpt checkStr, required := false, default := .vNone,
          description := .vNone, annot := "Optional[str]" },
        { name := "applicable", check := checkBool, required := false, default := .vBool true,
          description := .vNone, annot := "bool" } ] }

def Relationship : ModelSpec :=
  { name := "Relationship"
    fields :=
      [ { name := "source_id", check := checkStr, required := true, default := .vNone,
          description := .vNone, annot := "str" },
        { name := "source_type", check := checkStr, required := true, default := .vNone,
          description := .vNone, annot := "str" },
        { name := "target_id", check := checkStr, required := true, default := .vNone,
          description := .vNone, annot := "str" },
        { name := "target_type", check := checkStr, required := true, default := .vNone,
          description := .vNone, annot := "str" },
        { name := "kind", check := checkStr, required := true, default := .vNone,
          description := .vNone, annot := "str" },
        { name := "description", check := checkOpt checkStr, required := false, default := .vNone,
          description := .vNone, annot := "Optional[str]" } ] }

/-- schemas.list_models(): inspect.getmembers enumerates the public
BaseModel subclasses of the module in alphabetical order of class name. -/
def list_models : List ModelSpec :=
  [Application, ComplianceRequirement, DataAsset, Process, Relationship, Risk, Role]

/-- main._model_for_collection: first registered model whose lower-cased
class name equals the lower-cased collection name; None otherwise. -/
def _model_for_collection (collection : String) : Option ModelSpec :=
  list_models.find? fun m => pyLower m.name == pyLower collection

/-! ## Validator

`model_cls(**payload.data)` validates a loose dict against the resolved
model: a present value must pass the field check; an absent required
field is an error; an absent optional field takes the declared default.
Pydantic ignores payload keys that are not declared fields (default
`extra` policy), so the validated record ranges over declared fields
only, in declaration order.  Error texts and the aggregation of several
errors into one message are abstracted (first error reported). -/

def validateField (payload : Doc) (f : FieldSpec) : Except String Val :=
  match pyGet payload f.name with
  | some v => if f.check v then .ok v else .error ("invalid value for " ++ f.name)
  | none => if f.required then .error ("field required: " ++ f.name) else .ok f.default

def validateFields (specs : List FieldSpec) (payload : Doc) : Except String Doc :=
  match specs with
  | [] => .ok []
  | f :: rest =>
    match validateField payload f with
    | .error e => .error e
    | .ok v =>
      match validateFields rest payload with
      | .error e => .error e
      | .ok tail => .ok ((f.name, v) :: tail)

/-! ## Store adapter (database.py is not among the sources) -/

/-- In-memory image of the document store, for the write path. -/
structure StoreState where
  colls : List (String × List Doc)
  nextId : Nat

def insertDoc : List (String × List Doc) → String → Doc → List (String × List Doc)
  | [], coll, rec => [(coll, [rec])]
  | (c, ds) :: rest, coll, rec =>
    if c == coll then (c, ds ++ [rec]) :: rest else (c, ds) :: insertDoc rest coll rec

/-- Modelled from the spec: `database.create_document` is not among the
sources; §4.3 gives `insert(collectionName, record) -> opaque identifier`
as a durable write.  Identifier generation is abstracted as a counter;
identifiers are opaque strings. -/
def create_document (st : StoreState) (coll : String) (rec : Doc) : String × StoreState :=
  (toString st.nextId,
   { colls := insertDoc st.colls coll rec, nextId := st.nextId + 1 })

/-! ## HTTP handlers (src/main.py) -/

/-- Outcome of GET /documents/{collection}.  `storeFailure` models an
exception from get_documents escaping the handler (there is no
try/except around the find call), i.e. a hard server failure. -/
inductive ListResult where
  | notFound (detail : String)
  | storeFailure (e : StoreError)
  | ok (items : List Doc)
  deriving Repr

/-- Value serialization inside get_collection_documents: a
datetime/date becomes its isoformat text; anything else passes through. -/
def serializeVal : Val → Val
  | .vDate iso => .vStr iso
  | v => v

/-- The serialize closure of get_collection_documents: the value under
the key "_id" becomes its str() form; every other value goes through
`serializeVal`; keys and their order are preserved. -/
def serialize (d : Doc) : Doc :=
  d.map fun kv =>
    if kv.1 == "_id" then ("_id", Val.vStr (pyStr kv.2)) else (kv.1, serializeVal kv.2)

/-- GET /documents/{collection} (main.get_collection_documents): resolve
the model (404 when unknown), call get_documents on the lower-cased
collection name, serialize each raw record, wrap as items.  An exception
from the find call is not caught. -/
def get_collection_documents (find : FindFn) (collection : String) (limit : Nat) : ListResult :=
  match _model_for_collection collection with
  | none => .notFound ("Unknown collection " ++ collection)
  | some _ =>
    match find (pyLower collection) limit with
    | .error e => .storeFailure e
    | .ok docs => .ok (docs.map serialize)

/-- Outcome of POST /documents/{collection}. -/
inductive CreateResult where
  | notFound (detail : String)
  | unprocessable (detail : String)
  | created (id : String)
  deriving Repr

/-- POST /documents/{collection} (main.create_collection_document):
resolve the model (404 when unknown), validate the payload (422 with the
validation message on failure, before any store call), then insert the
validated record and return its new identifier.  The store state is
threaded explicitly; the 404 and 422 paths return it unchanged. -/
def create_collection_document (st : StoreState) (collection : String) (payloadData : Doc) :
    CreateResult × StoreState :=
  match _model_for_collection collection with
  | none => (.notFound ("Unknown collection " ++ collection), st)
  | some m =>
    match validateFields m.fields payloadData with
    | .error e => (.unprocessable ("Validation error: " ++ e), st)
    | .ok validated =>
      let r := create_document st (pyLower collection) validated
      (.created r.1, r.2)

/-! ## Graph assembler (main.get_graph) -/

structure GraphNode where
  id : String
  type : String
  label : Val
  deriving Repr

structure GraphEdge where
  source : String
  target : String
  kind : Val
  id : String
  deriving Repr

/-- The node built from one record of collection c:
id = str(d.get("_id")), type = c,
label = d.get("name") or d.get("title") or c.capitalize(). -/
def nodeOf (c : String) (d : Doc) : GraphNode :=
  { id := pyStr (pyGetD d "_id" .vNone)
    type := c
    label := pyOr (pyGetD d "name" .vNone) (pyOr (pyGetD d "title" .vNone) (.vStr (pyCapitalize c))) }

/-- Nodes contributed by one collection: an exception from the find call
is caught and the collection is skipped (the empty contribution). -/
def nodesOf (c : String) : Except StoreError (List Doc) → List GraphNode
  | .error _ => []
  | .ok docs => docs.map (nodeOf c)

/-- The node-building loop of get_graph over the core collections, in
order, appending each contribution.  (The id_map dict built alongside is
never read afterwards and is omitted.) -/
def graphNodes (find : FindFn) : List String → List GraphNode
  | [] => []
  | c :: rest => nodesOf c (find c 100) ++ graphNodes find rest

/-- The edge built from one relationship record, if any: skipped when
str(source_id) or str(target_id) is empty (note str(None) = "None" for a
missing endpoint); kind defaults to "rel" only when the key is absent. -/
def edgeOf (r : Doc) : Option GraphEdge :=
  let src := pyStr (pyGetD r "source_id" .vNone)
  let tgt := pyStr (pyGetD r "target_id" .vNone)
  if src == "" || tgt == "" then none
  else some { source := src, target := tgt,
              kind := pyGetD r "kind" (.vStr "rel"),
              id := pyStr (pyGetD r "_id" .vNone) }

def coreCollections : List String := ["application", "process", "role", "dataasset", "risk"]

structure GraphResult where
  nodes : List GraphNode
  edges : List GraphEdge
  deriving Repr

/-- GET /graph (main.get_graph): nodes from the five core collections
(each fetched with limit 100, failures skipped), edges from the
relationship collection (limit 500, failures yield no edges).  The
function is total: no failure of the store fails the assembly. -/
def get_graph (find : FindFn) : GraphResult :=
  { nodes := graphNodes find coreCollections
    edges :=
      match find "relationship" 500 with
      | .error _ => []
      | .ok rels => rels.filterMap edgeOf }

/-! ## Schema introspection (src/schemas.py schema_summary, main.get_schema)

schema_summary builds, per model, a dict with the collection name and a
per-field entry dict.  The per-field entry reads `f.field_info.description`:
the rest of the code uses the pydantic-v2 field API (`model.model_fields`,
`f.is_required()`, `f.annotation`), and a v2 FieldInfo object has no
attribute `field_info`, so this attribute access raises AttributeError.
The attribute read is made explicit below so the failure is visible in
the embedding.  (Under pydantic v1 the crash merely moves: v1 models have
no `model_fields` attribute at all.) -/

/-- The attribute slots of a pydantic-v2 FieldInfo object.  There is no
slot named field_info. -/
def fieldInfoAttrs : List String :=
  ["annotation", "default", "default_factory", "alias", "alias_priority",
   "validation_alias", "serialization_alias", "title", "description",
   "examples", "exclude", "discriminator", "json_schema_extra", "frozen",
   "validate_default", "repr", "init", "init_var", "kw_only", "metadata"]

/-- The read of `f.field_info.description` (schemas.py line 105): an
AttributeError unless FieldInfo had a field_info attribute. -/
def fieldDescription (f : FieldSpec) : Except String Val :=
  if fieldInfoAttrs.contains "field_info" then .ok f.description
  else .error "AttributeError: FieldInfo object has no attribute field_info"

/-- One field entry of schema_summary: type (str(f.annotation)),
required (f.is_required()), default (the identity
`None if f.default is None else f.default`), description (via the
failing attribute read above). -/
def schemaFieldEntry (f : FieldSpec) : Except String Doc := do
  let d ← fieldDescription f
  pure [("type", Val.vStr f.annot), ("required", Val.vBool f.required),
        ("default", f.default), ("description", d)]

/-- One model entry of schema_summary: the lower-cased collection name
and the per-field entries in declaration order. -/
structure SchemaEntry where
  collection : String
  fields : List (String × Doc)
  deriving Repr

def modelSchemaEntry (m : ModelSpec) : Except String (String × SchemaEntry) := do
  let fs ← m.fields.mapM fun f => do
    let e ← schemaFieldEntry f
    pure (f.name, e)
  pure (m.name, { collection := pyLower m.name, fields := fs })

/-- schemas.schema_summary(): the per-model entries in registry order;
the first failing attribute read aborts the whole computation. -/
def schema_summary : Except String (List (String × SchemaEntry)) :=
  list_models.mapM modelSchemaEntry

/-- GET /schema (main.get_schema) returns schema_summary() directly. -/
def get_schema : Except String (List (String × SchemaEntry)) :=
  schema_summary

/-! ## Concrete inputs used by the witnesses and counterexamples -/

/-- A store whose every find call raises StoreUnavailable. -/
def c1Find : FindFn := fun _ _ => .error .storeUnavailable

/-- A relationship record with no source_id key at all. -/
def c2Rel : Doc := [("_id", .vOid "e1"), ("target_id", .vStr "t1"), ("kind", .vStr "uses")]

/-- A relationship record whose source_id is the empty string. -/
def c2SkipRel : Doc := [("source_id", .vStr ""), ("target_id", .vStr "t2")]

/-- A store holding exactly one relationship record and nothing else. -/
def c2Find : FindFn := fun c _ => if c == "relationship" then .ok [c2Rel] else .ok []

def c3Payload : Doc := [("name", .vStr "X")]

def c4Find : FindFn := fun _ _ => .ok []

def c6Doc : Doc := [("_id", .vOid "a1"), ("name", .vStr "App")]

/-- A store where only the application collection is reachable. -/
def c6Find : FindFn := fun c _ => if c == "application" then .ok [c6Doc] else .error .storeUnavailable

/-- A risk record with an ObjectId and a datetime field. -/
def c7Doc : Doc := [("_id", .vOid "r1"), ("title", .vStr "X"), ("created", .vDate "2024-01-01T00:00:00")]

def c7Find : FindFn := fun c _ => if c == "risk" then .ok [c7Doc] else .ok []

/-- An application record whose name is present but empty (falsy). -/
def c8Doc : Doc := [("_id", .vOid "a1"), ("name", .vStr ""), ("title", .vStr "T")]

def c8Find : FindFn := fun c _ => if c == "application" then .ok [c8Doc] else .ok []

/-- An application record with no name key and a truthy title. -/
def c8WitDoc : Doc := [("_id", .vOid "a2"), ("title", .vStr "T2")]

def c9RiskPayload : Doc := [("title", .vStr "X")]

def c9CompliancePayload : Doc := [("title", .vStr "Y")]

def c9ProcessPayload : Doc := [("name", .vStr "P")]

def c10Payload : Doc := [("name", .vStr "X")]

/-! ## Helper lemmas -/

/-- A successful field validation returns the payload value when the key
is present and the declared default when it is absent. -/
theorem validateField_ok_val {payload : Doc} {f : FieldSpec} {v : Val}
    (h : validateField payload f = .ok v) :
    v = (pyGet payload f.name).getD f.default := by
  unfold validateField at h
  cases hg : pyGet payload f.name with
  | none =>
    rw [hg] at h
    by_cases hr : f.required
    · simp [hr] at h
    · simp [hr] at h
      simp [h]
  | some v0 =>
    rw [hg] at h
    by_cases hc : f.check v0
    · simp [hc] at h
      simp [h]
    · simp [hc] at h

/-- A successfully validated record is exactly the declared fields in
declaration order, each carrying the payload value or the default. -/
theorem validateFields_ok_shape :
    ∀ (specs : List FieldSpec) (payload rec : Doc),
      validateFields specs payload = .ok rec →
      rec = specs.map fun f => (f.name, (pyGet payload f.name).getD f.default) := by
  intro specs
  induction specs with
  | nil =>
    intro payload rec h
    simp [validateFields] at h
    simp [← h]
  | cons f rest ih =>
    intro payload rec h
    unfold validateFields at h
    cases hv : validateField payload f with
    | error e => rw [hv] at h; simp at h
    | ok v =>
      rw [hv] at h
      cases ht : validateFields rest payload with
      | error e => rw [ht] at h; simp at h
      | ok tail =>
        rw [ht] at h
        simp at h
        rw [← h, ih payload tail ht, validateField_ok_val hv]
        simp

/-- dict.get is unaffected by a leading entry with a different key. -/
theorem pyGet_cons_ne {k name : String} (h : ¬ k = name) (v : Val) (payload : Doc) :
    pyGet ((k, v) :: payload) name = pyGet payload name := by
  have hb : (k == name) = false := by simpa using h
  simp [pyGet, List.find?_cons, hb]

/-- The validator never reads a payload key that is not a declared field
name: extending the payload with such a key changes nothing. -/
theorem validateFields_extra {k : String} :
    ∀ (specs : List FieldSpec), k ∉ specs.map FieldSpec.name → ∀ (v : Val) (payload : Doc),
      validateFields specs ((k, v) :: payload) = validateFields specs payload := by
  intro specs
  induction specs with
  | nil => intro _ v payload; rfl
  | cons f rest ih =>
    intro hk v payload
    rw [List.map_cons] at hk
    have h1 : ¬ k = f.name := fun h => hk (by rw [h]; exact List.mem_cons_self _ _)
    have h2 : k ∉ rest.map FieldSpec.name := fun h => hk (List.mem_cons_of_mem _ h)
    unfold validateFields validateField
    rw [pyGet_cons_ne h1 v payload, ih h2 v payload]

/-- A record of a reachable core collection contributes its node to the
node-building loop. -/
theorem mem_graphNodes {find : FindFn} {c : String} {docs : List Doc} {d : Doc}
    (cores : List String) (hc : c ∈ cores) (hf : find c 100 = .ok docs) (hd : d ∈ docs) :
    nodeOf c d ∈ graphNodes find cores := by
  induction cores with
  | nil => cases hc
  | cons c0 rest ih =>
    unfold graphNodes
    cases hc with
    | head =>
      apply List.mem_append_left
      rw [hf]
      exact List.mem_map_of_mem (nodeOf c) hd
    | tail _ htl =>
      exact List.mem_append_right _ (ih htl)

/-! ## Claims -/

/-- C1, counterexample to the claim as stated: at a store whose find call
raises StoreUnavailable, the List handler does not answer with an empty
result; the exception escapes as a hard failure (there is no try/except
around the find call in get_collection_documents). -/
theorem list_store_failure_not_degraded :
    get_collection_documents c1Find "application" 100 = .storeFailure .storeUnavailable
    ∧ get_collection_documents c1Find "application" 100 ≠ .ok [] :=
  ⟨rfl, fun h => nomatch h⟩

/-- C1 (amended): for the List operation on a resolved collection, a
store failure raised by the find call propagates out of the handler as a
hard failure (a server error), not as an empty result; the graceful
degradation policy applies to the Graph Assembler only. -/
theorem list_store_failure_propagates (find : FindFn) (collection : String) (limit : Nat)
    (m : ModelSpec) (e : StoreError)
    (hres : _model_for_collection collection = some m)
    (hfind : find (pyLower collection) limit = .error e) :
    get_collection_documents find collection limit = .storeFailure e := by
  unfold get_collection_documents
  rw [hres, hfind]

theorem list_store_failure_propagates_witness :
    get_collection_documents c1Find "application" 100 = .storeFailure .storeUnavailable :=
  list_store_failure_propagates c1Find "application" 100 Application .storeUnavailable rfl rfl

/-- C2, counterexample to the claim as stated: a relationship record with
no source_id key is NOT excluded — str(None) is the non-empty string
"None", so the edge is emitted with source "None". -/
theorem graph_missing_source_id_edge_emitted :
    (get_graph c2Find).edges = [{ source := "None", target := "t1", kind := .vStr "uses", id := "e1" }]
    ∧ (get_graph c2Find).edges ≠ [] :=
  ⟨rfl, fun h => nomatch h⟩

/-- C2 (amended): the edge list is the relationship records filtered by
edgeOf; a record is skipped exactly when source_id or target_id
stringifies to the empty string (a missing endpoint stringifies to
"None", which is non-empty); any record with both endpoints stringifying
non-empty is emitted as {source, target, kind (default "rel" when the
kind key is absent), id}. -/
theorem graph_edge_filter_spec (find : FindFn) (rels : List Doc)
    (hf : find "relationship" 500 = .ok rels) :
    (get_graph find).edges = rels.filterMap edgeOf
    ∧ (∀ r : Doc, pyStr (pyGetD r "source_id" .vNone) = "" ∨ pyStr (pyGetD r "target_id" .vNone) = "" →
        edgeOf r = none)
    ∧ (∀ r : Doc, ¬ pyStr (pyGetD r "source_id" .vNone) = "" → ¬ pyStr (pyGetD r "target_id" .vNone) = "" →
        edgeOf r = some { source := pyStr (pyGetD r "source_id" .vNone),
                          target := pyStr (pyGetD r "target_id" .vNone),
                          kind := pyGetD r "kind" (.vStr "rel"),
                          id := pyStr (pyGetD r "_id" .vNone) }) := by
  refine ⟨?_, ?_, ?_⟩
  · unfold get_graph
    rw [hf]
  · intro r hr
    unfold edgeOf
    rcases hr with h | h <;> simp [h]
  · intro r h1 h2
    unfold edgeOf
    simp [h1, h2]

theorem graph_edge_filter_spec_witness :
    (get_graph c2Find).edges = [c2Rel].filterMap edgeOf
    ∧ edgeOf c2SkipRel = none :=
  ⟨(graph_edge_filter_spec c2Find [c2Rel] rfl).1,
   (graph_edge_filter_spec c2Find [c2Rel] rfl).2.1 c2SkipRel (Or.inl rfl)⟩

/-- C3: on a resolved collection, a payload that fails validation gets a
422-equivalent carrying the validation message and leaves the store
state unchanged (no insert); a payload that validates is inserted via
the store adapter and the handler answers with the new identifier. -/
theorem create_validation_gate (st : StoreState) (collection : String) (payload : Doc)
    (m : ModelSpec) (hres : _model_for_collection collection = some m) :
    (∀ e, validateFields m.fields payload = .error e →
      create_collection_document st collection payload =
        (.unprocessable ("Validation error: " ++ e), st))
    ∧ (∀ rec, validateFields m.fields payload = .ok rec →
      create_collection_document st collection payload =
        (.created (create_document st (pyLower collection) rec).1,
         (create_document st (pyLower collection) rec).2)) := by
  have hred : create_collection_document st collection payload =
      (match validateFields m.fields payload with
       | .error e => (CreateResult.unprocessable ("Validation error: " ++ e), st)
       | .ok validated =>
         (.created (create_document st (pyLower collection) validated).1,
          (create_document st (pyLower collection) validated).2)) := by
    unfold create_collection_document
    rw [hres]
  constructor <;> intro x hx <;> rw [hred, hx]

theorem create_validation_gate_witness :
    create_collection_document ⟨[], 0⟩ "application" [] =
      (.unprocessable ("Validation error: " ++ "field required: name"), (⟨[], 0⟩ : StoreState))
    ∧ create_collection_document ⟨[], 0⟩ "application" c3Payload =
      (.created (create_document ⟨[], 0⟩ (pyLower "application") (validateFields Application.fields c3Payload).toOption.get!).1,
       (create_document ⟨[], 0⟩ (pyLower "application") (validateFields Application.fields c3Payload).toOption.get!).2) :=
  ⟨(create_validation_gate ⟨[], 0⟩ "application" [] Application rfl).1
     "field required: name" rfl,
   (create_validation_gate ⟨[], 0⟩ "application" c3Payload Application rfl).2
     (validateFields Application.fields c3Payload).toOption.get! rfl⟩

/-- C4: collection resolution is case-insensitive exact match on the
registered class name — every string equal to a registered name up to
letter case resolves to that model — and a string matching no registered
name resolves to nothing, so the List handler answers a 404-equivalent
naming the collection. -/
theorem collection_resolution_case_insensitive :
    (∀ m ∈ list_models, ∀ s : String, pyLower s = pyLower m.name →
      _model_for_collection s = some m)
    ∧ (∀ s : String, (∀ m ∈ list_models, ¬ pyLower s = pyLower m.name) →
      _model_for_collection s = none
      ∧ ∀ (find : FindFn) (limit : Nat),
          get_collection_documents find s limit = .notFound ("Unknown collection " ++ s)) := by
  constructor
  · intro m hm s hs
    simp only [list_models] at hm
    fin_cases hm <;> (unfold _model_for_collection; rw [hs]; rfl)
  · intro s hs
    have hnone : _model_for_collection s = none := by
      unfold _model_for_collection
      rw [List.find?_eq_none]
      intro m hm
      simp only [beq_iff_eq]
      exact fun h => hs m hm h.symm
    refine ⟨hnone, fun find limit => ?_⟩
    unfold get_collection_documents
    rw [hnone]

theorem collection_resolution_case_insensitive_witness :
    _model_for_collection "APPLICATION" = some Application
    ∧ _model_for_collection "doesnotexist" = none
    ∧ get_collection_documents c4Find "doesnotexist" 100 =
        .notFound ("Unknown collection " ++ "doesnotexist") := by
  have hns : ∀ m ∈ list_models, ¬ pyLower "doesnotexist" = pyLower m.name := by
    intro m hm
    simp only [list_models] at hm
    fin_cases hm <;> decide
  exact ⟨collection_resolution_case_insensitive.1 Application
           (by simp only [list_models]; exact .head _) "APPLICATION" rfl,
         (collection_resolution_case_insensitive.2 "doesnotexist" hns).1,
         (collection_resolution_case_insensitive.2 "doesnotexist" hns).2 c4Find 100⟩

/-- C5: GET /schema does not return the per-type summary: building the
first field entry reads f.field_info.description, and a pydantic-v2
FieldInfo (the API the code otherwise uses) has no field_info attribute,
so schema_summary raises AttributeError and the endpoint fails instead
of returning an entry per registered type. -/
theorem schema_summary_raises_attribute_error :
    get_schema = .error "AttributeError: FieldInfo object has no attribute field_info" := rfl

/-- C6: graph assembly is total — a core collection whose find call
fails contributes no nodes but every record of every reachable core
collection still contributes its node, and when the relationship
collection is unreachable or holds zero records the edge list is empty
while the nodes stand. -/
theorem graph_degrades_gracefully (find : FindFn) :
    (∀ (c : String) (e : StoreError), find c 100 = .error e → nodesOf c (find c 100) = [])
    ∧ (∀ c ∈ coreCollections, ∀ (docs : List Doc) (d : Doc),
        find c 100 = .ok docs → d ∈ docs → nodeOf c d ∈ (get_graph find).nodes)
    ∧ (∀ e : StoreError, find "relationship" 500 = .error e → (get_graph find).edges = [])
    ∧ (find "relationship" 500 = .ok [] → (get_graph find).edges = []) := by
  refine ⟨?_, ?_, ?_, ?_⟩
  · intro c e he
    rw [he]
    rfl
  · intro c hc docs d hf hd
    exact mem_graphNodes coreCollections hc hf hd
  · intro e he
    unfold get_graph
    rw [he]
  · intro he
    unfold get_graph
    rw [he]
    rfl

theorem graph_degrades_gracefully_witness :
    nodesOf "process" (c6Find "process" 100) = []
    ∧ nodeOf "application" c6Doc ∈ (get_graph c6Find).nodes
    ∧ (get_graph c6Find).edges = [] :=
  ⟨(graph_degrades_gracefully c6Find).1 "process" .storeUnavailable rfl,
   (graph_degrades_gracefully c6Find).2.1 "application" (.head _) [c6Doc] c6Doc rfl (.head _),
   (graph_degrades_gracefully c6Find).2.2.1 .storeUnavailable rfl⟩

/-- C7: on a resolved collection with a successful find, the List
handler answers the serialized records wrapped as items in store order;
serialization keeps every key in place, replaces the value under "_id"
by its str() form, turns every datetime/date value into its isoformat
text and passes every other value through unchanged. -/
theorem list_serialization_spec (find : FindFn) (collection : String) (limit : Nat)
    (m : ModelSpec) (docs : List Doc)
    (hres : _model_for_collection collection = some m)
    (hfind : find (pyLower collection) limit = .ok docs) :
    get_collection_documents find collection limit = .ok (docs.map serialize)
    ∧ (∀ d : Doc, (serialize d).map Prod.fst = d.map Prod.fst)
    ∧ (∀ (d : Doc) (v : Val), ("_id", v) ∈ d → ("_id", Val.vStr (pyStr v)) ∈ serialize d)
    ∧ (∀ (d : Doc) (k : String) (v : Val), (k, v) ∈ d → ¬ k = "_id" →
        (k, serializeVal v) ∈ serialize d)
    ∧ (∀ iso, serializeVal (.vDate iso) = .vStr iso)
    ∧ (∀ v : Val, (∀ iso, ¬ v = .vDate iso) → serializeVal v = v) := by
  refine ⟨?_, ?_, ?_, ?_, fun iso => rfl, ?_⟩
  · unfold get_collection_documents
    rw [hres, hfind]
  · intro d
    induction d with
    | nil => rfl
    | cons kv rest ih =>
      by_cases h : kv.1 == "_id"
      · simp only [serialize, List.map_cons] at ih ⊢
        rw [if_pos h]
        simp only [List.map_cons, ih]
        simp only [beq_iff_eq] at h
        rw [h]
      · simp only [serialize, List.map_cons] at ih ⊢
        rw [if_neg h]
        simp only [List.map_cons, ih]
  · intro d v hv
    exact List.mem_map_of_mem _ hv
  · intro d k v hv hk
    have hb : (k == "_id") = false := by simpa using hk
    unfold serialize
    refine List.mem_map.mpr ⟨(k, v), hv, ?_⟩
    simp [hb]
  · intro v hv
    cases v with
    | vDate iso => exact absurd rfl (hv iso)
    | vNone => rfl
    | vStr s => rfl
    | vInt n => rfl
    | vBool b => rfl
    | vList xs => rfl
    | vOid oid => rfl

theorem list_serialization_spec_witness :
    get_collection_documents c7Find "Risk" 100 = .ok ([c7Doc].map serialize)
    ∧ ("_id", Val.vStr "r1") ∈ serialize c7Doc
    ∧ ("created", Val.vStr "2024-01-01T00:00:00") ∈ serialize c7Doc :=
  ⟨(list_serialization_spec c7Find "Risk" 100 Risk [c7Doc] rfl rfl).1,
   (list_serialization_spec c7Find "Risk" 100 Risk [c7Doc] rfl rfl).2.2.1 c7Doc (.vOid "r1")
     (by simp [c7Doc]),
   (list_serialization_spec c7Find "Risk" 100 Risk [c7Doc] rfl rfl).2.2.2.1 c7Doc "created"
     (.vDate "2024-01-01T00:00:00") (by simp [c7Doc]) (by decide)⟩

/-- C8, counterexample to the claim as stated: a record whose name key
is present but empty falls through to the title, so its node label is
not the name value. -/
theorem node_label_empty_name_falls_through :
    (get_graph c8Find).nodes = [{ id := "a1", type := "application", label := .vStr "T" }]
    ∧ ¬ (get_graph c8Find).nodes = [{ id := "a1", type := "application", label := .vStr "" }] :=
  ⟨rfl, by
    intro h
    rw [show (get_graph c8Find).nodes =
        [{ id := "a1", type := "application", label := Val.vStr "T" }] from rfl] at h
    simp at h⟩

/-- C8 (amended): every record fetched from a reachable core collection
contributes the node {id: str of its identifier, type: the collection
name, label: the name value when truthy, else the title value when
truthy, else the capitalized collection name} — the fallback triggers
when name/title are absent OR falsy (e.g. the empty string), not only
when absent. -/
theorem node_label_truthiness_spec (c : String) (d : Doc) :
    (nodeOf c d).id = pyStr (pyGetD d "_id" .vNone)
    ∧ (nodeOf c d).type = c
    ∧ (pyTruthy (pyGetD d "name" .vNone) = true → (nodeOf c d).label = pyGetD d "name" .vNone)
    ∧ (pyTruthy (pyGetD d "name" .vNone) = false → pyTruthy (pyGetD d "title" .vNone) = true →
        (nodeOf c d).label = pyGetD d "title" .vNone)
    ∧ (pyTruthy (pyGetD d "name" .vNone) = false → pyTruthy (pyGetD d "title" .vNone) = false →
        (nodeOf c d).label = .vStr (pyCapitalize c))
    ∧ (∀ (find : FindFn) (docs : List Doc), c ∈ coreCollections → find c 100 = .ok docs →
        d ∈ docs → nodeOf c d ∈ (get_graph find).nodes) := by
  refine ⟨rfl, rfl, ?_, ?_, ?_, ?_⟩
  · intro h
    simp [nodeOf, pyOr, h]
  · intro h1 h2
    simp [nodeOf, pyOr, h1, h2]
  · intro h1 h2
    simp [nodeOf, pyOr, h1, h2]
  · intro find docs hc hf hd
    exact mem_graphNodes coreCollections hc hf hd

theorem node_label_truthiness_spec_witness :
    (nodeOf "application" c8WitDoc).label = pyGetD c8WitDoc "title" .vNone
    ∧ (nodeOf "application" c8Doc).label = pyGetD c8Doc "title" .vNone
    ∧ nodeOf "application" c8Doc ∈ (get_graph c8Find).nodes :=
  ⟨(node_label_truthiness_spec "application" c8WitDoc).2.2.2.1 rfl rfl,
   (node_label_truthiness_spec "application" c8Doc).2.2.2.1 rfl rfl,
   (node_label_truthiness_spec "application" c8Doc).2.2.2.2.2 c8Find [c8Doc]
     (.head _) rfl (.head _)⟩

/-- C9: validation fills the enum defaults — a validated Risk payload
omitting likelihood or impact gets "low" for them, a validated
ComplianceRequirement omitting framework gets "GDPR", and a validated
Process omitting level gets "L2". -/
theorem validation_enum_defaults :
    (∀ payload rec : Doc, validateFields Risk.fields payload = .ok rec →
        pyGet payload "likelihood" = none → pyGet rec "likelihood" = some (.vStr "low"))
    ∧ (∀ payload rec : Doc, validateFields Risk.fields payload = .ok rec →
        pyGet payload "impact" = none → pyGet rec "impact" = some (.vStr "low"))
    ∧ (∀ payload rec : Doc, validateFields ComplianceRequirement.fields payload = .ok rec →
        pyGet payload "framework" = none → pyGet rec "framework" = some (.vStr "GDPR"))
    ∧ (∀ payload rec : Doc, validateFields Process.fields payload = .ok rec →
        pyGet payload "level" = none → pyGet rec "level" = some (.vStr "L2")) := by
  refine ⟨?_, ?_, ?_, ?_⟩ <;>
    (intro payload rec h h0
     rw [validateFields_ok_shape _ payload rec h]
     simp only [Risk, ComplianceRequirement, Process, List.map_cons, List.map_nil]
     rw [h0]
     simp [pyGet, List.find?])

theorem validation_enum_defaults_witness :
    pyGet (validateFields Risk.fields c9RiskPayload).toOption.get! "likelihood" = some (.vStr "low")
    ∧ pyGet (validateFields Risk.fields c9RiskPayload).toOption.get! "impact" = some (.vStr "low")
    ∧ pyGet (validateFields ComplianceRequirement.fields c9CompliancePayload).toOption.get! "framework"
        = some (.vStr "GDPR")
    ∧ pyGet (validateFields Process.fields c9ProcessPayload).toOption.get! "level" = some (.vStr "L2") :=
  ⟨validation_enum_defaults.1 c9RiskPayload _ rfl rfl,
   validation_enum_defaults.2.1 c9RiskPayload _ rfl rfl,
   validation_enum_defaults.2.2.1 c9CompliancePayload _ rfl rfl,
   validation_enum_defaults.2.2.2 c9ProcessPayload _ rfl rfl⟩

/-- C10: a payload key that is not a declared field of the resolved type
is silently dropped — validation gives the same outcome with or without
it (so extras are not rejected), any validated record carries exactly
the declared field names (so extras are not passed to the insert), and
the whole Create handler is unchanged by the extra key. -/
theorem extra_keys_ignored :
    ∀ m ∈ list_models, ∀ k : String, k ∉ m.fields.map FieldSpec.name → ∀ v : Val,
      (∀ payload : Doc,
        validateFields m.fields ((k, v) :: payload) = validateFields m.fields payload)
      ∧ (∀ payload rec : Doc, validateFields m.fields payload = .ok rec →
          rec.map Prod.fst = m.fields.map FieldSpec.name)
      ∧ (∀ (st : StoreState) (collection : String) (payload : Doc),
          _model_for_collection collection = some m →
          create_collection_document st collection ((k, v) :: payload) =
            create_collection_document st collection payload) := by
  intro m _ k hk v
  refine ⟨fun payload => validateFields_extra m.fields hk v payload, ?_, ?_⟩
  · intro payload rec h
    rw [validateFields_ok_shape _ payload rec h, List.map_map]
    rfl
  · intro st collection payload hres
    have hred : ∀ p : Doc, create_collection_document st collection p =
        (match validateFields m.fields p with
         | .error e => (CreateResult.unprocessable ("Validation error: " ++ e), st)
         | .ok validated =>
           (.created (create_document st (pyLower collection) validated).1,
            (create_document st (pyLower collection) validated).2)) := by
      intro p
      unfold create_collection_document
      rw [hres]
    rw [hred, hred, validateFields_extra m.fields hk v payload]

theorem extra_keys_ignored_witness :
    validateFields Application.fields (("shoesize", Val.vInt 42) :: c10Payload) =
      validateFields Application.fields c10Payload
    ∧ create_collection_document ⟨[], 0⟩ "application" (("shoesize", Val.vInt 42) :: c10Payload) =
      create_collection_document ⟨[], 0⟩ "application" c10Payload :=
  ⟨(extra_keys_ignored Application (by simp only [list_models]; exact .head _) "shoesize"
      (by decide) (Val.vInt 42)).1 c10Payload,
   (extra_keys_ignored Application (by simp only [list_models]; exact .head _) "shoesize"
      (by decide) (Val.vInt 42)).2.2 ⟨[], 0⟩ "application" c10Payload rfl⟩

end Ordne
